import Mathlib

/-!
Shallow embedding of the data-processing pipeline in src/tripy.py.

The program loads uploaded report files (SP, SD, SB) into pandas
DataFrames, renames ASIN metric columns to canonical names, concatenates
the files of each report type, stamps a selected date, left-joins each
report table against a reference mapping, and aggregates by
(Selected Date, Sub-Category) with summed metrics.

Modelling conventions:
- A DataFrame is a list of column names plus a list of rows; a cell is a
  Val (string, integer, or null, where null models pandas NaN).
- Python exceptions (pd.concat on an empty list, KeyError from pd.merge
  or groupby on a missing column) are modelled as Except.error.
- Calls to st.error / st.warning are modelled as Msg values returned
  alongside results.
- pandas groupby uses its defaults: sort=True (group keys sorted) and
  dropna=True (rows whose group key is null are dropped); sums skip null
  cells, and an all-null group sums to 0.
- pd.merge matches null keys with null keys (pandas joins NaN to NaN),
  and suffixes overlapping column names with _x and _y.
-/

inductive Val where
  | str (s : String)
  | int (n : Int)
  | null
deriving DecidableEq, Repr

structure DF where
  cols : List String
  rows : List (List Val)
deriving DecidableEq, Repr

def emptyDF : DF := ⟨[], []⟩

/-- Index of the first occurrence of a column name in a column list. -/
def colIdx : List String → String → Option Nat
  | [], _ => none
  | c :: cs, t => if c = t then some 0 else (colIdx cs t).map (fun i => i + 1)

/-- Value of a row at a named column; null when the column is absent
(pandas would raise there, but every use below is guarded). -/
def getCell (cols : List String) (r : List Val) (c : String) : Val :=
  match colIdx cols c with
  | some i => (r[i]?).getD Val.null
  | none => Val.null

/-- Messages shown through st.error / st.warning. -/
inductive Msg where
  | error (s : String)
  | warning (s : String)
deriving DecidableEq, Repr

/-- An uploaded file: its name (carrying the extension) and the tabular
content that pd.read_excel / pd.read_csv would produce from it. -/
structure UploadedFile where
  name : String
  data : DF
deriving DecidableEq, Repr

/-- Python str.endswith: the last characters of s are exactly t. -/
def strEndsWith (s t : String) : Bool :=
  decide (t.data.length ≤ s.data.length)
    && decide (s.data.drop (s.data.length - t.data.length) = t.data)

/-- read_file of tripy.py: dispatch on the file extension; unsupported
formats yield st.error and an empty DataFrame. -/
def read_file (f : UploadedFile) : DF × List Msg :=
  if strEndsWith f.name ".xlsx" then (f.data, [])
  else if strEndsWith f.name ".csv" then (f.data, [])
  else (emptyDF, [Msg.error "Unsupported file format"])

def rename_dict_14_day : List (String × String) :=
  [("14 Day Total Sales (₹)", "Total Sales"),
   ("14 Day Total Orders (#)", "Total Orders"),
   ("14 Day Total Units (#)", "Total Units")]

def rename_dict_7_day : List (String × String) :=
  [("7 Day Total Sales (₹)", "Total Sales"),
   ("7 Day Total Units (#)", "Total Units"),
   ("7 Day Total Orders (#)", "Total Orders")]

/-- df.rename(columns=m): every column name that is a key of the map is
replaced by its image; values are untouched. -/
def renameCols (df : DF) (m : List (String × String)) : DF :=
  ⟨df.cols.map (fun c => ((m.lookup c).getD c)), df.rows⟩

/-- The column-renaming stage of read_file_asin: apply the 14-day map if
all its source columns are present, else the 7-day map if all its source
columns are present, else warn and return the table unchanged. -/
def normalize_asin (df : DF) : DF × List Msg :=
  if rename_dict_14_day.all (fun p => df.cols.contains p.1) then
    (renameCols df rename_dict_14_day, [])
  else if rename_dict_7_day.all (fun p => df.cols.contains p.1) then
    (renameCols df rename_dict_7_day, [])
  else
    (df, [Msg.warning "Expected columns not found. Returning the original DataFrame."])

/-- read_file_asin of tripy.py: load by extension, then rename metric
columns when one of the two known conventions is fully present. -/
def read_file_asin (f : UploadedFile) : DF × List Msg :=
  if strEndsWith f.name ".xlsx" then normalize_asin f.data
  else if strEndsWith f.name ".csv" then normalize_asin f.data
  else (emptyDF, [Msg.error "Unsupported file format"])

/-- Fold step keeping the first occurrence of each element (used both
for the column union of pd.concat and for distinct group keys). -/
def addNew {α : Type} [DecidableEq α] (acc : List α) (c : α) : List α :=
  if c ∈ acc then acc else acc ++ [c]

/-- Union of the column lists of several frames, in order of first
appearance. -/
def unionCols (dfs : List DF) : List String :=
  dfs.foldl (fun acc df => df.cols.foldl addNew acc) []

/-- Reindex one row from its source columns to a target column list:
cells of columns absent from the source become null. -/
def reindexRow (src : List String) (tgt : List String) (r : List Val) : List Val :=
  tgt.map (fun c => getCell src r c)

/-- pd.concat(dfs, ignore_index=True): raises on an empty list;
otherwise rows are stacked in order, each reindexed to the union of the
column sets, with absent cells null. -/
def concatDF (dfs : List DF) : Except String DF :=
  if dfs.isEmpty then Except.error "No objects to concatenate"
  else
    let cols := unionCols dfs
    Except.ok ⟨cols, dfs.flatMap (fun df => df.rows.map (reindexRow df.cols cols))⟩

/-- df[c] = v: overwrite every cell of an existing column, or append a
new column with that value in every row. -/
def setCol (df : DF) (c : String) (v : Val) : DF :=
  match colIdx df.cols c with
  | some i => ⟨df.cols, df.rows.map (fun r => r.set i v)⟩
  | none => ⟨df.cols ++ [c], df.rows.map (fun r => r ++ [v])⟩

/-- Right-table rows whose key cell equals a given value (pandas joins
null keys to null keys). -/
def matchRows (r : DF) (rk : String) (v : Val) : List (List Val) :=
  r.rows.filter (fun rr => decide (getCell r.cols rr rk = v))

/-- Column names of a merge result: overlapping names get the _x and _y
suffixes on the left and right side respectively. -/
def mergedCols (l r : DF) : List String :=
  let overlap := l.cols.filter (fun c => r.cols.contains c)
  l.cols.map (fun c => if overlap.contains c then c ++ "_x" else c)
    ++ r.cols.map (fun c => if overlap.contains c then c ++ "_y" else c)

/-- Rows of a left outer merge: every left row, extended by each
matching right row, or by nulls in every right column when no right row
matches. -/
def mergedRows (l r : DF) (lk rk : String) : List (List Val) :=
  l.rows.flatMap (fun lr =>
    let ms := (matchRows r rk (getCell l.cols lr lk)).map (fun rr => lr ++ rr)
    if ms.isEmpty then [lr ++ List.replicate r.cols.length Val.null] else ms)

/-- pd.merge(l, r, left_on=lk, right_on=rk, how="left"): KeyError when
either key column is absent. -/
def mergeLeft (l r : DF) (lk rk : String) : Except String DF :=
  if l.cols.contains lk = false then Except.error "KeyError"
  else if r.cols.contains rk = false then Except.error "KeyError"
  else Except.ok ⟨mergedCols l r, mergedRows l r lk rk⟩

/-- Lexicographic comparison of character lists by code point, the
comparison Python applies to strings. -/
def charsLT : List Char → List Char → Bool
  | _, [] => false
  | [], _ :: _ => true
  | a :: as, b :: bs =>
    if a < b then true else if b < a then false else charsLT as bs

/-- Python string comparison: lexicographic on code points. -/
def strLT (a b : String) : Bool := charsLT a.data b.data

/-- Strict comparison on cell values, used to sort group keys: integers
and strings by their own orders (null keys are dropped before sorting,
so their placement is immaterial). -/
def valLT : Val → Val → Bool
  | Val.int a, Val.int b => decide (a < b)
  | Val.int _, Val.str _ => true
  | Val.int _, Val.null => true
  | Val.str _, Val.int _ => false
  | Val.str a, Val.str b => strLT a b
  | Val.str _, Val.null => true
  | Val.null, _ => false

/-- Lexicographic order on (Selected Date, Sub-Category) group keys. -/
def keyLE (a b : Val × Val) : Bool :=
  valLT a.1 b.1 || (decide (a.1 = b.1) && (valLT a.2 b.2 || decide (a.2 = b.2)))

/-- Deduplication keeping the first occurrence of each element. -/
def dedupKF {α : Type} [DecidableEq α] (l : List α) : List α :=
  l.foldl addNew []

/-- The (Selected Date, Sub-Category) key of a row. -/
def rowKey (cols : List String) (r : List Val) : Val × Val :=
  (getCell cols r "Selected Date", getCell cols r "Sub-Category")

/-- Group keys of the non-null rows, in row order, with repetitions
(groupby dropna=True discards rows whose key has a null component). -/
def groupKeys (df : DF) : List (Val × Val) :=
  (df.rows.map (rowKey df.cols)).filter
    (fun k => decide (k.1 ≠ Val.null) && decide (k.2 ≠ Val.null))

/-- The sort order on group keys as a relation. -/
def keyLEP (a b : Val × Val) : Prop := keyLE a b = true

instance : DecidableRel keyLEP := fun a b => instDecidableEqBool (keyLE a b) true

/-- Distinct group keys in sorted order (groupby sort=True). -/
def aggKeys (df : DF) : List (Val × Val) :=
  (dedupKF (groupKeys df)).insertionSort keyLEP

/-- Sum of the integer cells of a column slice; null cells are skipped
(pandas groupby sum with skipna), and an all-null group sums to 0. -/
def sumVals (vs : List Val) : Val :=
  Val.int (vs.foldl (fun acc v => match v with | Val.int n => acc + n | _ => acc) 0)

/-- One output row of the aggregation: the group key followed by the sum
of each metric column over the rows of that group. -/
def aggRow (df : DF) (metrics : List String) (k : Val × Val) : List Val :=
  [k.1, k.2] ++ metrics.map (fun c =>
    sumVals (((df.rows.filter (fun r => decide (rowKey df.cols r = k)))).map
      (fun r => getCell df.cols r c)))

/-- aggregate_data of tripy.py: if any metric column is missing, emit
st.error and return an empty frame; otherwise groupby the two key
columns (KeyError when one is absent) and sum the metrics, producing the
key columns followed by the metric columns, one row per distinct
non-null key, in sorted key order. -/
def aggregate_data (df : DF) (metrics : List String) : Except String (DF × List Msg) :=
  if metrics.all (fun c => df.cols.contains c) then
    if df.cols.contains "Selected Date" && df.cols.contains "Sub-Category" then
      Except.ok (⟨["Selected Date", "Sub-Category"] ++ metrics,
                  (aggKeys df).map (aggRow df metrics)⟩, [])
    else Except.error "KeyError"
  else Except.ok (emptyDF, [Msg.error "One or more columns are missing for aggregation"])

/-- Metric set summed for the SP report (the agg dict literal at the
SP_summary call). -/
def sp_agg_dict : List String := ["Total Orders", "Total Units", "Total Sales", "Spend"]

/-- Metric set summed for the SB report. -/
def sb_agg_dict : List String := ["Orders", "Clicks", "Sales(INR)", "Spend(INR)"]

/-- Metric set summed for the SD report. -/
def sd_agg_dict : List String := ["Total Orders", "Total Units", "Total Sales", "Spend"]

structure Date where
  year : Nat
  month : Nat
  day : Nat
deriving DecidableEq, Repr

def pad2 (n : Nat) : String :=
  if n < 10 then "0" ++ toString n else toString n

def pad4 (n : Nat) : String :=
  if n < 10 then "000" ++ toString n
  else if n < 100 then "00" ++ toString n
  else if n < 1000 then "0" ++ toString n
  else toString n

/-- strftime of the selected date with format YYYY-MM-DD. -/
def Date.fmt (d : Date) : String :=
  pad4 d.year ++ "-" ++ pad2 d.month ++ "-" ++ pad2 d.day

/-- Everything process_files leaves behind: the three summaries, the two
reference mappings as they stand after the run (the code never writes to
them; returning them makes that checkable), and the emitted messages. -/
structure PFOut where
  sp_summary : DF
  sd_summary : DF
  sb_summary : DF
  asin_mapping : DF
  campaign_mapping : DF
  msgs : List Msg
deriving DecidableEq, Repr

/-- process_files of tripy.py, statement by statement. Each match models
a pandas call that can raise (concat of an empty list, merge or groupby
on a missing key column); the match order is the statement order of the
Python, so the first raising call wins, as in Python. -/
def process_files (sp_file sd_file sb_file : List UploadedFile)
    (asin_mapping campaign_mapping : DF) (selected_date : Date) :
    Except String PFOut :=
  let sp_reads := sp_file.map read_file_asin
  match concatDF (sp_reads.map Prod.fst) with
  | Except.error e => Except.error e
  | Except.ok sp0 =>
    let sd_reads := sd_file.map read_file_asin
    let sb_reads := sb_file.map read_file
    match concatDF (sd_reads.map Prod.fst) with
    | Except.error e => Except.error e
    | Except.ok sd0 =>
      match concatDF (sb_reads.map Prod.fst) with
      | Except.error e => Except.error e
      | Except.ok sb0 =>
        let s := Val.str selected_date.fmt
        let sp1 := setCol sp0 "Selected Date" s
        let sd1 := setCol sd0 "Selected Date" s
        let sb1 := setCol sb0 "Selected Date" s
        match mergeLeft sp1 asin_mapping "Advertised ASIN" "ASIN" with
        | Except.error e => Except.error e
        | Except.ok mSP =>
          match mergeLeft sb1 campaign_mapping "Campaigns" "SB Campaign Name" with
          | Except.error e => Except.error e
          | Except.ok mSB =>
            match mergeLeft sd1 asin_mapping "Advertised ASIN" "ASIN" with
            | Except.error e => Except.error e
            | Except.ok mSD =>
              match aggregate_data mSP sp_agg_dict with
              | Except.error e => Except.error e
              | Except.ok (spS, msp) =>
                match aggregate_data mSB sb_agg_dict with
                | Except.error e => Except.error e
                | Except.ok (sbS, msb) =>
                  match aggregate_data mSD sd_agg_dict with
                  | Except.error e => Except.error e
                  | Except.ok (sdS, msd) =>
                    Except.ok ⟨spS, sdS, sbS, asin_mapping, campaign_mapping,
                      (sp_reads.map Prod.snd).flatten ++ (sd_reads.map Prod.snd).flatten
                        ++ (sb_reads.map Prod.snd).flatten ++ msp ++ msb ++ msd⟩

/-- Outcome of one run of the Streamlit script at the Process button. -/
inductive ClickOutcome where
  | produced (sp_summary sd_summary sb_summary : DF) (msgs : List Msg)
  | raised (e : String)
  | warned (m : Msg)
deriving DecidableEq, Repr

/-- The module-level button block of tripy.py: when the button was
clicked the pipeline runs unconditionally (there is no check that the
three upload groups are non-empty); when it was not clicked, the else
branch shows the upload warning. -/
def process_click (clicked : Bool) (sp_file sd_file sb_file : List UploadedFile)
    (asin_mapping campaign_mapping : DF) (selected_date : Date) : ClickOutcome :=
  if clicked then
    match process_files sp_file sd_file sb_file asin_mapping campaign_mapping selected_date with
    | Except.ok out => ClickOutcome.produced out.sp_summary out.sd_summary out.sb_summary out.msgs
    | Except.error e => ClickOutcome.raised e
  else
    ClickOutcome.warned (Msg.warning "Please upload all required files (SP, SD, SB).")

/-! Concrete tables used to evaluate the definitions on explicit
inputs: a complete well-formed run, and inputs exhibiting the
missing-column, unmatched-key and null-key behaviours. -/

/-- A complete SP upload: every metric column present. -/
def wf_sp_file : UploadedFile :=
  ⟨"sp.csv", ⟨["Advertised ASIN", "Total Orders", "Total Units", "Total Sales", "Spend"],
    [[Val.str "B01", Val.int 1, Val.int 2, Val.int 30, Val.int 4]]⟩⟩

/-- A complete SD upload. -/
def wf_sd_file : UploadedFile :=
  ⟨"sd.csv", ⟨["Advertised ASIN", "Total Orders", "Total Units", "Total Sales", "Spend"],
    [[Val.str "B01", Val.int 5, Val.int 6, Val.int 70, Val.int 8]]⟩⟩

/-- A complete SB upload. -/
def wf_sb_file : UploadedFile :=
  ⟨"sb.csv", ⟨["Campaigns", "Orders", "Clicks", "Sales(INR)", "Spend(INR)"],
    [[Val.str "Camp1", Val.int 1, Val.int 2, Val.int 3, Val.int 4]]⟩⟩

/-- An SP upload lacking the Spend metric column. -/
def nospend_sp_file : UploadedFile :=
  ⟨"sp2.csv", ⟨["Advertised ASIN", "Total Orders", "Total Units", "Total Sales"],
    [[Val.str "B01", Val.int 1, Val.int 2, Val.int 30]]⟩⟩

def wf_asin_map : DF := ⟨["ASIN", "Sub-Category"], [[Val.str "B01", Val.str "CatA"]]⟩

def wf_campaign_map : DF :=
  ⟨["SB Campaign Name", "Sub-Category"], [[Val.str "Camp1", Val.str "CatB"]]⟩

def wf_date : Date := ⟨2024, 1, 2⟩

/-- The output of process_files on the complete run. -/
def wf_out : PFOut :=
  ⟨⟨["Selected Date", "Sub-Category", "Total Orders", "Total Units", "Total Sales", "Spend"],
    [[Val.str "2024-01-02", Val.str "CatA", Val.int 1, Val.int 2, Val.int 30, Val.int 4]]⟩,
   ⟨["Selected Date", "Sub-Category", "Total Orders", "Total Units", "Total Sales", "Spend"],
    [[Val.str "2024-01-02", Val.str "CatA", Val.int 5, Val.int 6, Val.int 70, Val.int 8]]⟩,
   ⟨["Selected Date", "Sub-Category", "Orders", "Clicks", "Sales(INR)", "Spend(INR)"],
    [[Val.str "2024-01-02", Val.str "CatB", Val.int 1, Val.int 2, Val.int 3, Val.int 4]]⟩,
   wf_asin_map, wf_campaign_map,
   [Msg.warning "Expected columns not found. Returning the original DataFrame.",
    Msg.warning "Expected columns not found. Returning the original DataFrame."]⟩

/-- The output of process_files when the SP upload lacks Spend: the SP
summary degrades to the empty frame, SD and SB are as in the complete
run. -/
def nospend_out : PFOut :=
  ⟨emptyDF,
   wf_out.sd_summary,
   wf_out.sb_summary,
   wf_asin_map, wf_campaign_map,
   [Msg.warning "Expected columns not found. Returning the original DataFrame.",
    Msg.warning "Expected columns not found. Returning the original DataFrame.",
    Msg.error "One or more columns are missing for aggregation"]⟩

/-- A report table (date already stamped) with one row whose key B01 has
a match in the mapping and one row whose key ZZZ has none. -/
def c1_report : DF :=
  ⟨["Advertised ASIN", "Selected Date", "Total Orders", "Total Units", "Total Sales", "Spend"],
   [[Val.str "B01", Val.str "2024-01-01", Val.int 1, Val.int 1, Val.int 10, Val.int 5],
    [Val.str "ZZZ", Val.str "2024-01-01", Val.int 2, Val.int 2, Val.int 20, Val.int 6]]⟩

def c1_mapping : DF := ⟨["ASIN", "Sub-Category"], [[Val.str "B01", Val.str "Cat1"]]⟩

/-- The unmatched row of c1_report. -/
def c1_zzz_row : List Val :=
  [Val.str "ZZZ", Val.str "2024-01-01", Val.int 2, Val.int 2, Val.int 20, Val.int 6]

/-- The left join of c1_report with c1_mapping: the ZZZ row is padded
with nulls in the mapping columns. -/
def c1_joined : DF :=
  ⟨["Advertised ASIN", "Selected Date", "Total Orders", "Total Units", "Total Sales", "Spend",
    "ASIN", "Sub-Category"],
   [[Val.str "B01", Val.str "2024-01-01", Val.int 1, Val.int 1, Val.int 10, Val.int 5,
     Val.str "B01", Val.str "Cat1"],
    [Val.str "ZZZ", Val.str "2024-01-01", Val.int 2, Val.int 2, Val.int 20, Val.int 6,
     Val.null, Val.null]]⟩

/-- The aggregation of c1_joined: only the matched B01 row survives. -/
def c1_summary : DF :=
  ⟨["Selected Date", "Sub-Category", "Total Orders", "Total Units", "Total Sales", "Spend"],
   [[Val.str "2024-01-01", Val.str "Cat1", Val.int 1, Val.int 1, Val.int 10, Val.int 5]]⟩

/-- A joined table with all required columns for SP aggregation whose
single row has a null Sub-Category. -/
def c8_nullkey_df : DF :=
  ⟨["Selected Date", "Sub-Category", "Total Orders", "Total Units", "Total Sales", "Spend"],
   [[Val.str "2024-01-01", Val.null, Val.int 7, Val.int 1, Val.int 2, Val.int 3]]⟩

/-- The grouping example of the claim, widened to the full SP metric
set. -/
def c8_example : DF :=
  ⟨["Selected Date", "Sub-Category", "Total Orders", "Total Units", "Total Sales", "Spend"],
   [[Val.str "2024-01-01", Val.str "A", Val.int 1, Val.int 0, Val.int 0, Val.int 0],
    [Val.str "2024-01-01", Val.str "A", Val.int 2, Val.int 0, Val.int 0, Val.int 0],
    [Val.str "2024-01-01", Val.str "B", Val.int 5, Val.int 0, Val.int 0, Val.int 0]]⟩

/-- Expected aggregation of c8_example. -/
def c8_example_summary : DF :=
  ⟨["Selected Date", "Sub-Category", "Total Orders", "Total Units", "Total Sales", "Spend"],
   [[Val.str "2024-01-01", Val.str "A", Val.int 3, Val.int 0, Val.int 0, Val.int 0],
    [Val.str "2024-01-01", Val.str "B", Val.int 5, Val.int 0, Val.int 0, Val.int 0]]⟩

/-- A table with every SP metric column but no Sub-Category column. -/
def nosub_df : DF :=
  ⟨["Selected Date", "Total Orders", "Total Units", "Total Sales", "Spend"],
   [[Val.str "2024-01-01", Val.int 1, Val.int 2, Val.int 3, Val.int 4]]⟩

/-- A joined table lacking the Spend metric column only. -/
def nospend_df : DF :=
  ⟨["Selected Date", "Sub-Category", "Total Orders", "Total Units", "Total Sales"],
   [[Val.str "2024-01-01", Val.str "CatA", Val.int 1, Val.int 2, Val.int 3]]⟩

/-- An upload whose extension is neither xlsx nor csv. -/
def txt_file : UploadedFile := ⟨"report.txt", ⟨["A"], [[Val.int 1]]⟩⟩

/-- Two uploads with overlapping but different column sets. -/
def fileAB : UploadedFile := ⟨"a.csv", ⟨["A", "B"], [[Val.int 1, Val.int 2]]⟩⟩

def fileAC : UploadedFile := ⟨"b.csv", ⟨["A", "C"], [[Val.int 3, Val.int 4]]⟩⟩

/-- A table carrying the full 14-day and the full 7-day source column
sets at once. -/
def both_sets_df : DF :=
  ⟨["Advertised ASIN",
    "14 Day Total Sales (\u20b9)", "14 Day Total Orders (#)", "14 Day Total Units (#)",
    "7 Day Total Sales (\u20b9)", "7 Day Total Orders (#)", "7 Day Total Units (#)"],
   [[Val.str "B01", Val.int 1, Val.int 2, Val.int 3, Val.int 4, Val.int 5, Val.int 6]]⟩

/-- An already-canonical table: neither source column set is present. -/
def canonical_df : DF :=
  ⟨["Advertised ASIN", "Total Orders", "Total Units", "Total Sales", "Spend"],
   [[Val.str "B01", Val.int 1, Val.int 2, Val.int 30, Val.int 4]]⟩

def canonical_file : UploadedFile := ⟨"sp.csv", canonical_df⟩

def both_file : UploadedFile := ⟨"sp.csv", both_sets_df⟩

/-! Basic lemmas about the table primitives. -/

theorem colIdx_eq_none {cols : List String} {c : String} :
    colIdx cols c = none ↔ c ∉ cols := by
  induction cols with
  | nil => simp [colIdx]
  | cons d cs ih =>
    by_cases h : d = c
    · simp [colIdx, h]
    · simp [colIdx, h, ih, Ne.symm h]

theorem colIdx_getElem {cols : List String} {c : String} {i : Nat}
    (h : colIdx cols c = some i) : cols[i]? = some c := by
  induction cols generalizing i with
  | nil => simp [colIdx] at h
  | cons d cs ih =>
    by_cases hd : d = c
    · simp [colIdx, hd] at h
      subst hd
      simp [← h]
    · simp [colIdx, hd] at h
      obtain ⟨j, hj, hji⟩ := h
      subst hji
      simpa using ih hj

theorem getCell_not_mem {cols : List String} {r : List Val} {c : String}
    (h : c ∉ cols) : getCell cols r c = Val.null := by
  unfold getCell
  rw [colIdx_eq_none.mpr h]

theorem getCell_map_self {tgt : List String} {g : String → Val} {c : String}
    (h : c ∈ tgt) : getCell tgt (tgt.map g) c = g c := by
  unfold getCell
  match hidx : colIdx tgt c with
  | none => exact absurd h (colIdx_eq_none.mp hidx)
  | some i =>
    have hg := colIdx_getElem hidx
    simp [List.getElem?_map, hg]

theorem mem_foldl_addNew {α : Type} [DecidableEq α] (l : List α) (acc : List α) (x : α) :
    x ∈ l.foldl addNew acc ↔ x ∈ acc ∨ x ∈ l := by
  induction l generalizing acc with
  | nil => simp
  | cons c cs ih =>
    rw [List.foldl_cons, ih]
    by_cases hc : c ∈ acc
    · by_cases hx : x = c <;> simp [addNew, hc, hx]
    · by_cases hx : x = c <;> simp [addNew, hc, hx, or_assoc]

theorem nodup_foldl_addNew {α : Type} [DecidableEq α] (l : List α) (acc : List α)
    (hacc : acc.Nodup) : (l.foldl addNew acc).Nodup := by
  induction l generalizing acc with
  | nil => exact hacc
  | cons c cs ih =>
    rw [List.foldl_cons]
    apply ih
    by_cases hc : c ∈ acc
    · simpa [addNew, hc] using hacc
    · rw [addNew, if_neg hc, List.nodup_append]
      refine ⟨hacc, List.nodup_singleton c, fun a ha hmem => ?_⟩
      rw [List.mem_singleton] at hmem
      exact hc (hmem ▸ ha)

theorem mem_dedupKF {α : Type} [DecidableEq α] (l : List α) (a : α) :
    a ∈ dedupKF l ↔ a ∈ l := by
  unfold dedupKF
  rw [mem_foldl_addNew]
  simp

theorem nodup_dedupKF {α : Type} [DecidableEq α] (l : List α) :
    (dedupKF l).Nodup :=
  nodup_foldl_addNew l [] List.nodup_nil

theorem mem_unionCols (dfs : List DF) (c : String) :
    c ∈ unionCols dfs ↔ ∃ df ∈ dfs, c ∈ df.cols := by
  unfold unionCols
  suffices h : ∀ acc, c ∈ dfs.foldl (fun acc df => df.cols.foldl addNew acc) acc
      ↔ c ∈ acc ∨ ∃ df ∈ dfs, c ∈ df.cols by
    simpa using h []
  induction dfs with
  | nil => simp
  | cons d ds ih =>
    intro acc
    rw [List.foldl_cons, ih, mem_foldl_addNew]
    by_cases h : c ∈ d.cols <;> simp [h, or_assoc]

/-! Order lemmas for the group-key comparison. -/

theorem charsLT_trans (a : List Char) : ∀ (b c : List Char),
    charsLT a b = true → charsLT b c = true → charsLT a c = true := by
  induction a with
  | nil =>
    intro b c h1 h2
    cases b with
    | nil => exact Bool.noConfusion h1
    | cons q qs =>
      cases c with
      | nil => exact Bool.noConfusion h2
      | cons r rs => rfl
  | cons p ps ih =>
    intro b c h1 h2
    cases b with
    | nil => exact Bool.noConfusion h1
    | cons q qs =>
      cases c with
      | nil => exact Bool.noConfusion h2
      | cons r rs =>
        simp only [charsLT] at h1 h2 ⊢
        by_cases hpq : p < q
        · by_cases hqr : q < r
          · simp [lt_trans hpq hqr]
          · by_cases hrq : r < q
            · simp [hqr, hrq] at h2
            · have hqe : q = r := le_antisymm (not_lt.mp hrq) (not_lt.mp hqr)
              subst hqe
              simp [hpq]
        · by_cases hqp : q < p
          · simp [hpq, hqp] at h1
          · have hpe : p = q := le_antisymm (not_lt.mp hqp) (not_lt.mp hpq)
            subst hpe
            simp only [hpq, if_false, lt_irrefl] at h1
            by_cases hqr : p < r
            · simp [hqr]
            · by_cases hrq : r < p
              · simp [hqr, hrq] at h2
              · have hqe : p = r := le_antisymm (not_lt.mp hrq) (not_lt.mp hqr)
                subst hqe
                simp only [lt_irrefl, if_false] at h1 h2 ⊢
                exact ih _ _ h1 h2

theorem charsLT_tri : ∀ (a b : List Char),
    charsLT a b = true ∨ a = b ∨ charsLT b a = true
  | [], [] => Or.inr (Or.inl rfl)
  | [], _ :: _ => Or.inl rfl
  | _ :: _, [] => Or.inr (Or.inr rfl)
  | a :: as, b :: bs => by
    rcases lt_trichotomy a b with h | h | h
    · left
      simp [charsLT, h]
    · subst h
      rcases charsLT_tri as bs with h | h | h
      · left
        simp [charsLT, lt_self_iff_false, h]
      · right; left
        rw [h]
      · right; right
        simp [charsLT, lt_self_iff_false, h]
    · right; right
      simp [charsLT, h]

theorem strLT_trans (a b c : String) (h1 : strLT a b = true) (h2 : strLT b c = true) :
    strLT a c = true :=
  charsLT_trans a.data b.data c.data h1 h2

theorem strLT_tri (a b : String) : strLT a b = true ∨ a = b ∨ strLT b a = true := by
  rcases charsLT_tri a.data b.data with h | h | h
  · exact Or.inl h
  · exact Or.inr (Or.inl (congrArg String.mk h))
  · exact Or.inr (Or.inr h)

theorem valLT_trans (a b c : Val) (h1 : valLT a b = true) (h2 : valLT b c = true) :
    valLT a c = true := by
  cases a <;> cases b <;> cases c <;>
    first
      | rfl
      | exact Bool.noConfusion h1
      | exact Bool.noConfusion h2
      | exact strLT_trans _ _ _ h1 h2
      | exact decide_eq_true (lt_trans (of_decide_eq_true h1) (of_decide_eq_true h2))

theorem valLT_tri (a b : Val) : valLT a b = true ∨ a = b ∨ valLT b a = true := by
  cases a <;> cases b
  case str.str s t =>
    rcases strLT_tri s t with h | h | h
    · exact Or.inl h
    · exact Or.inr (Or.inl (congrArg Val.str h))
    · exact Or.inr (Or.inr h)
  case int.int m n =>
    rcases lt_trichotomy m n with h | h | h
    · exact Or.inl (decide_eq_true h)
    · exact Or.inr (Or.inl (congrArg Val.int h))
    · exact Or.inr (Or.inr (decide_eq_true h))
  case null.null => exact Or.inr (Or.inl rfl)
  all_goals first
    | exact Or.inl rfl
    | exact Or.inr (Or.inr rfl)

theorem keyLE_trans (a b c : Val × Val) (h1 : keyLE a b = true) (h2 : keyLE b c = true) :
    keyLE a c = true := by
  unfold keyLE at h1 h2 ⊢
  simp only [Bool.or_eq_true, Bool.and_eq_true, decide_eq_true_eq] at h1 h2 ⊢
  rcases h1 with h1 | ⟨e1, h1⟩ <;> rcases h2 with h2 | ⟨e2, h2⟩
  · exact Or.inl (valLT_trans _ _ _ h1 h2)
  · left
    rw [← e2]
    exact h1
  · left
    rw [e1]
    exact h2
  · refine Or.inr ⟨e1.trans e2, ?_⟩
    rcases h1 with h1 | h1 <;> rcases h2 with h2 | h2
    · exact Or.inl (valLT_trans _ _ _ h1 h2)
    · left
      rw [← h2]
      exact h1
    · left
      rw [h1]
      exact h2
    · exact Or.inr (h1.trans h2)

theorem keyLE_total (a b : Val × Val) : (keyLE a b || keyLE b a) = true := by
  unfold keyLE
  simp only [Bool.or_eq_true, Bool.and_eq_true, decide_eq_true_eq]
  rcases valLT_tri a.1 b.1 with h | h | h
  · exact Or.inl (Or.inl h)
  · rcases valLT_tri a.2 b.2 with h2 | h2 | h2
    · exact Or.inl (Or.inr ⟨h, Or.inl h2⟩)
    · exact Or.inl (Or.inr ⟨h, Or.inr h2⟩)
    · exact Or.inr (Or.inr ⟨h.symm, Or.inl h2⟩)
  · exact Or.inr (Or.inl h)

/-! Lemmas about the aggregation stage. -/

theorem mem_aggKeys {df : DF} {k : Val × Val} :
    k ∈ aggKeys df ↔
      k.1 ≠ Val.null ∧ k.2 ≠ Val.null ∧ ∃ r ∈ df.rows, rowKey df.cols r = k := by
  unfold aggKeys groupKeys
  rw [List.mem_insertionSort, mem_dedupKF, List.mem_filter]
  constructor
  · rintro ⟨hmem, hp⟩
    simp only [Bool.and_eq_true, decide_eq_true_eq] at hp
    obtain ⟨r, hr, hrk⟩ := List.mem_map.mp hmem
    exact ⟨hp.1, hp.2, r, hr, hrk⟩
  · rintro ⟨h1, h2, r, hr, hrk⟩
    refine ⟨List.mem_map.mpr ⟨r, hr, hrk⟩, ?_⟩
    simp [h1, h2]

theorem nodup_aggKeys (df : DF) : (aggKeys df).Nodup := by
  unfold aggKeys
  exact ((List.perm_insertionSort keyLEP (dedupKF (groupKeys df))).symm).nodup
    (nodup_dedupKF (groupKeys df))

theorem pairwise_aggKeys (df : DF) :
    (aggKeys df).Pairwise (fun a b => keyLE a b = true) := by
  unfold aggKeys
  haveI : IsTrans (Val × Val) keyLEP := ⟨fun a b c => keyLE_trans a b c⟩
  haveI : IsTotal (Val × Val) keyLEP :=
    ⟨fun a b => by
      have h := keyLE_total a b
      rw [Bool.or_eq_true] at h
      exact h⟩
  exact List.sorted_insertionSort keyLEP (dedupKF (groupKeys df))

theorem aggregate_data_groupby {df : DF} {metrics : List String}
    (hall : metrics.all (fun c => df.cols.contains c) = true)
    (hsel : df.cols.contains "Selected Date" = true)
    (hsub : df.cols.contains "Sub-Category" = true) :
    aggregate_data df metrics =
      Except.ok (⟨["Selected Date", "Sub-Category"] ++ metrics,
                 (aggKeys df).map (aggRow df metrics)⟩, []) := by
  unfold aggregate_data
  rw [hall, hsel, hsub]
  rfl

theorem aggregate_data_missing {df : DF} {metrics : List String}
    (h : metrics.all (fun c => df.cols.contains c) = false) :
    aggregate_data df metrics =
      Except.ok (emptyDF, [Msg.error "One or more columns are missing for aggregation"]) := by
  unfold aggregate_data
  rw [h]
  rfl

/-! Inversion of a successful process_files run: the returned mappings
are the inputs, and each of the SD and SB summaries is exactly the
aggregation of the merge of the concatenation of its own uploaded
files, independent of the other report types. -/

/-- Success inversion for process_files. -/
theorem process_files_ok_inv {sp sd sb : List UploadedFile} {am cm : DF} {d : Date} {out : PFOut}
    (h : process_files sp sd sb am cm d = Except.ok out) :
    out.asin_mapping = am ∧ out.campaign_mapping = cm
    ∧ (∃ sd0 mSD msd, concatDF ((sd.map read_file_asin).map Prod.fst) = Except.ok sd0
        ∧ mergeLeft (setCol sd0 "Selected Date" (Val.str d.fmt)) am "Advertised ASIN" "ASIN" = Except.ok mSD
        ∧ aggregate_data mSD sd_agg_dict = Except.ok (out.sd_summary, msd))
    ∧ (∃ sb0 mSB msb, concatDF ((sb.map read_file).map Prod.fst) = Except.ok sb0
        ∧ mergeLeft (setCol sb0 "Selected Date" (Val.str d.fmt)) cm "Campaigns" "SB Campaign Name" = Except.ok mSB
        ∧ aggregate_data mSB sb_agg_dict = Except.ok (out.sb_summary, msb)) := by
  rw [process_files] at h
  dsimp only [] at h
  cases hsp0 : concatDF ((sp.map read_file_asin).map Prod.fst) with
  | error e => simp only [hsp0] at h; exact Except.noConfusion h
  | ok sp0 =>
  simp only [hsp0] at h
  cases hsd0 : concatDF ((sd.map read_file_asin).map Prod.fst) with
  | error e => simp only [hsd0] at h; exact Except.noConfusion h
  | ok sd0 =>
  simp only [hsd0] at h
  cases hsb0 : concatDF ((sb.map read_file).map Prod.fst) with
  | error e => simp only [hsb0] at h; exact Except.noConfusion h
  | ok sb0 =>
  simp only [hsb0] at h
  cases hmSP : mergeLeft (setCol sp0 "Selected Date" (Val.str d.fmt)) am "Advertised ASIN" "ASIN" with
  | error e => simp only [hmSP] at h; exact Except.noConfusion h
  | ok mSP =>
  simp only [hmSP] at h
  cases hmSB : mergeLeft (setCol sb0 "Selected Date" (Val.str d.fmt)) cm "Campaigns" "SB Campaign Name" with
  | error e => simp only [hmSB] at h; exact Except.noConfusion h
  | ok mSB =>
  simp only [hmSB] at h
  cases hmSD : mergeLeft (setCol sd0 "Selected Date" (Val.str d.fmt)) am "Advertised ASIN" "ASIN" with
  | error e => simp only [hmSD] at h; exact Except.noConfusion h
  | ok mSD =>
  simp only [hmSD] at h
  cases hspS : aggregate_data mSP sp_agg_dict with
  | error e => simp only [hspS] at h; exact Except.noConfusion h
  | ok p =>
  obtain ⟨spS, msp⟩ := p
  simp only [hspS] at h
  cases hsbS : aggregate_data mSB sb_agg_dict with
  | error e => simp only [hsbS] at h; exact Except.noConfusion h
  | ok q =>
  obtain ⟨sbS, msb⟩ := q
  simp only [hsbS] at h
  cases hsdS : aggregate_data mSD sd_agg_dict with
  | error e => simp only [hsdS] at h; exact Except.noConfusion h
  | ok w =>
  obtain ⟨sdS, msd⟩ := w
  simp only [hsdS] at h
  injection h with h
  subst h
  exact ⟨rfl, rfl, ⟨sd0, mSD, msd, rfl, hmSD, hsdS⟩, ⟨sb0, mSB, msb, rfl, hmSB, hsbS⟩⟩

/-! Counting lemmas for the left-join row multiplicity. -/

theorem countP_flatMap {α β : Type} (l : List α) (f : α → List β) (p : β → Bool) :
    (l.flatMap f).countP p = (l.map (fun a => (f a).countP p)).sum := by
  induction l with
  | nil => rfl
  | cons a t ih => simp [List.flatMap_cons, List.countP_append, ih]

theorem sum_map_indicator {α : Type} [DecidableEq α] (rows : List α) (g : α → Nat) (t : α)
    (hg : ∀ x ∈ rows, g x = if x = t then 1 else 0) :
    (rows.map g).sum = rows.countP (fun x => decide (x = t)) := by
  induction rows with
  | nil => rfl
  | cons a rows ih =>
    rw [List.map_cons, List.sum_cons, List.countP_cons,
        ih (fun x hx => hg x (List.mem_cons_of_mem a hx)),
        hg a (List.mem_cons_self a rows)]
    by_cases h : a = t <;> simp [h, Nat.add_comm]

theorem mergeLeft_ok_inv {l r : DF} {lk rk : String} {m : DF}
    (hm : mergeLeft l r lk rk = Except.ok m) :
    m = ⟨mergedCols l r, mergedRows l r lk rk⟩ := by
  unfold mergeLeft at hm
  split at hm
  · exact Except.noConfusion hm
  · split at hm
    · exact Except.noConfusion hm
    · injection hm with hm
      exact hm.symm

/-- Contribution of one left row to the merged rows, counted against the
null-padded image of an unmatched row. -/
theorem merge_contrib_unmatched {l r : DF} {lk rk : String} {row x : List Val}
    (hlen : x.length = row.length)
    (hum : ∀ rr ∈ r.rows, getCell r.cols rr rk ≠ getCell l.cols row lk) :
    ((let ms := (matchRows r rk (getCell l.cols x lk)).map (fun rr => x ++ rr)
      if ms.isEmpty then [x ++ List.replicate r.cols.length Val.null] else ms).countP
        (fun y => decide (y = row ++ List.replicate r.cols.length Val.null)))
      = if x = row then 1 else 0 := by
  by_cases hx : x = row
  · subst hx
    have hnil : matchRows r rk (getCell l.cols x lk) = [] := by
      unfold matchRows
      rw [List.filter_eq_nil_iff]
      intro rr hrr
      simp only [decide_eq_true_eq]
      exact hum rr hrr
    simp [hnil]
  · have hne : ∀ rr : List Val, ¬ (x ++ rr = row ++ List.replicate r.cols.length Val.null) := by
      intro rr hc
      exact hx (List.append_inj_left hc hlen)
    cases hms : (matchRows r rk (getCell l.cols x lk)).map (fun rr => x ++ rr) with
    | nil =>
      simp only [hms, List.isEmpty_nil, if_true, hx, if_false]
      rw [List.countP_eq_zero]
      intro y hy
      simp only [List.mem_singleton] at hy
      subst hy
      simp only [decide_eq_true_eq]
      exact hne _
    | cons z zs =>
      simp only [hms, List.isEmpty_cons, Bool.false_eq_true, if_false, hx]
      rw [List.countP_eq_zero]
      intro y hy
      rw [← hms] at hy
      obtain ⟨rr, _, hyeq⟩ := List.mem_map.mp hy
      subst hyeq
      simp only [decide_eq_true_eq]
      exact hne rr

/-- An unmatched left row appears in the merged rows exactly as often as
it appears among the left rows, each time padded with nulls in every
column of the right table. -/
theorem mergedRows_count_unmatched {l r : DF} {lk rk : String} {row : List Val}
    (hwf : ∀ x ∈ l.rows, x.length = l.cols.length)
    (hrow : row ∈ l.rows)
    (hum : ∀ rr ∈ r.rows, getCell r.cols rr rk ≠ getCell l.cols row lk) :
    (mergedRows l r lk rk).countP
        (fun y => decide (y = row ++ List.replicate r.cols.length Val.null))
      = l.rows.countP (fun x => decide (x = row)) := by
  unfold mergedRows
  rw [countP_flatMap]
  apply sum_map_indicator
  intro x hx
  exact merge_contrib_unmatched ((hwf x hx).trans (hwf row hrow).symm) hum

theorem aggregate_data_keyerror {df : DF} {metrics : List String}
    (hall : metrics.all (fun c => df.cols.contains c) = true)
    (h : (df.cols.contains "Selected Date" && df.cols.contains "Sub-Category") = false) :
    aggregate_data df metrics = Except.error "KeyError" := by
  unfold aggregate_data
  rw [hall, h]
  rfl

/-- Every row of a summary produced by aggregate_data carries a non-null
Sub-Category cell: rows whose group key is null were dropped by the
groupby, so no null-category bucket ever appears. -/
theorem aggregate_rows_key_nonnull {df : DF} {metrics : List String} {S : DF} {msgs : List Msg}
    (hS : aggregate_data df metrics = Except.ok (S, msgs)) :
    ∀ outRow ∈ S.rows, getCell S.cols outRow "Sub-Category" ≠ Val.null := by
  by_cases hall : metrics.all (fun c => df.cols.contains c) = true
  · by_cases hgrp : (df.cols.contains "Selected Date" && df.cols.contains "Sub-Category") = true
    · rw [Bool.and_eq_true] at hgrp
      rw [aggregate_data_groupby hall hgrp.1 hgrp.2] at hS
      injection hS with hS
      injection hS with h1 h2
      subst h1
      subst h2
      intro outRow hmem
      obtain ⟨k, hk, hkeq⟩ := List.mem_map.mp hmem
      subst hkeq
      have hk2 := (mem_aggKeys.mp hk).2.1
      simpa [aggRow, getCell, colIdx] using hk2
    · rw [aggregate_data_keyerror hall (Bool.eq_false_iff.mpr hgrp)] at hS
      exact Except.noConfusion hS
  · rw [aggregate_data_missing (Bool.eq_false_iff.mpr hall)] at hS
    injection hS with hS
    injection hS with h1 h2
    subst h1
    subst h2
    intro outRow hmem
    exact absurd hmem (List.not_mem_nil outRow)

/-! Dispatch lemmas for the loaders. -/

theorem read_file_asin_supported {f : UploadedFile}
    (hext : strEndsWith f.name ".xlsx" = true ∨ strEndsWith f.name ".csv" = true) :
    read_file_asin f = normalize_asin f.data := by
  unfold read_file_asin
  cases hx : strEndsWith f.name ".xlsx" with
  | true => simp only [hx, if_true]
  | false =>
    rcases hext with h | h
    · rw [hx] at h
      exact Bool.noConfusion h
    · simp only [hx, h, Bool.false_eq_true, if_false, if_true]

/-! C7 -/

/-- C7: for every uploaded file whose name ends in neither .xlsx nor
.csv, both loaders signal the unsupported-format error and return the
empty table with zero rows and zero columns, and no exception is
raised. -/
theorem C7_unsupported_format (f : UploadedFile)
    (h1 : strEndsWith f.name ".xlsx" = false)
    (h2 : strEndsWith f.name ".csv" = false) :
    read_file f = (emptyDF, [Msg.error "Unsupported file format"])
    ∧ read_file_asin f = (emptyDF, [Msg.error "Unsupported file format"])
    ∧ emptyDF.cols.length = 0 ∧ emptyDF.rows.length = 0 := by
  unfold read_file read_file_asin
  rw [h1, h2]
  exact ⟨rfl, rfl, rfl, rfl⟩

/-- C7 witness: the loaders on a concrete .txt upload. -/
theorem C7_witness :
    read_file txt_file = (emptyDF, [Msg.error "Unsupported file format"])
    ∧ read_file_asin txt_file = (emptyDF, [Msg.error "Unsupported file format"])
    ∧ emptyDF.cols.length = 0 ∧ emptyDF.rows.length = 0 :=
  C7_unsupported_format txt_file rfl rfl

/-! C6 -/

/-- C6: on a supported file whose table contains neither the full
14-day nor the full 7-day source column set (an already-canonical table
in particular), read_file_asin returns the table with columns and
values unchanged and emits the expected-columns-not-found warning
instead of erroring. -/
theorem C6_canonical_unchanged (f : UploadedFile)
    (hext : strEndsWith f.name ".xlsx" = true ∨ strEndsWith f.name ".csv" = true)
    (h14 : rename_dict_14_day.all (fun p => f.data.cols.contains p.1) = false)
    (h7 : rename_dict_7_day.all (fun p => f.data.cols.contains p.1) = false) :
    read_file_asin f =
      (f.data, [Msg.warning "Expected columns not found. Returning the original DataFrame."]) := by
  rw [read_file_asin_supported hext]
  unfold normalize_asin
  rw [h14, h7]
  rfl

/-- C6 witness: re-reading a file whose table already carries the
canonical column names leaves it unchanged and warns. -/
theorem C6_witness :
    read_file_asin canonical_file =
      (canonical_df,
       [Msg.warning "Expected columns not found. Returning the original DataFrame."]) :=
  C6_canonical_unchanged canonical_file (Or.inr rfl) rfl rfl

/-! C5 -/

/-- C5: on a supported file whose table contains both the full 14-day
and the full 7-day source column sets, only the 14-day rename map is
applied (the first check wins), and the 7-day source columns keep their
original names in the result. -/
theorem C5_tiebreak_14day (f : UploadedFile)
    (hext : strEndsWith f.name ".xlsx" = true ∨ strEndsWith f.name ".csv" = true)
    (h14 : rename_dict_14_day.all (fun p => f.data.cols.contains p.1) = true)
    (h7 : rename_dict_7_day.all (fun p => f.data.cols.contains p.1) = true) :
    read_file_asin f = (renameCols f.data rename_dict_14_day, [])
    ∧ ∀ c ∈ rename_dict_7_day.map Prod.fst, c ∈ (renameCols f.data rename_dict_14_day).cols := by
  constructor
  · rw [read_file_asin_supported hext]
    unfold normalize_asin
    rw [h14]
    rfl
  · intro c hc
    have hmem : ∀ p ∈ rename_dict_7_day, f.data.cols.contains p.1 = true :=
      List.all_eq_true.mp h7
    simp only [rename_dict_7_day, List.map_cons, List.map_nil, List.mem_cons,
      List.not_mem_nil, or_false] at hc
    have hlook : rename_dict_14_day.lookup c = none := by
      rcases hc with rfl | rfl | rfl <;> rfl
    have hcin : c ∈ f.data.cols := by
      rcases hc with rfl | rfl | rfl
      · simpa using hmem ("7 Day Total Sales (₹)", "Total Sales") (by simp [rename_dict_7_day])
      · simpa using hmem ("7 Day Total Units (#)", "Total Units") (by simp [rename_dict_7_day])
      · simpa using hmem ("7 Day Total Orders (#)", "Total Orders") (by simp [rename_dict_7_day])
    simp only [renameCols]
    refine List.mem_map.mpr ⟨c, hcin, ?_⟩
    rw [hlook]
    rfl

/-- C5 witness: a table holding both full column sets is renamed with
the 14-day map, and a 7-day source column name survives. -/
theorem C5_witness :
    read_file_asin both_file = (renameCols both_sets_df rename_dict_14_day, [])
    ∧ "7 Day Total Sales (₹)" ∈ (renameCols both_sets_df rename_dict_14_day).cols :=
  ⟨(C5_tiebreak_14day both_file (Or.inr rfl) rfl rfl).1,
   (C5_tiebreak_14day both_file (Or.inr rfl) rfl rfl).2 "7 Day Total Sales (₹)" (by decide)⟩

/-! C3 -/

/-- C3: evaluation at the failing input. With the Process button
clicked and the SP group empty (SD and SB non-empty), the pipeline is
invoked anyway and raises at pd.concat of an empty list; the
please-upload warning is emitted exactly when the button was not
clicked, regardless of the uploads. -/
theorem C3_empty_group_raises :
    process_click true [] [wf_sd_file] [wf_sb_file] wf_asin_map wf_campaign_map wf_date
      = ClickOutcome.raised "No objects to concatenate"
    ∧ process_click false [] [] [] wf_asin_map wf_campaign_map wf_date
      = ClickOutcome.warned (Msg.warning "Please upload all required files (SP, SD, SB).")
    ∧ process_click false [wf_sp_file] [wf_sd_file] [wf_sb_file] wf_asin_map wf_campaign_map
        wf_date
      = ClickOutcome.warned (Msg.warning "Please upload all required files (SP, SD, SB).") :=
  ⟨rfl, rfl, rfl⟩

/-! C4 -/

/-- C4: counterexample. aggregate_data raises (a KeyError from groupby)
on a table that carries every required metric column but lacks the
Sub-Category grouping column, so aggregate_data does not never-raise. -/
theorem C4_counterexample :
    aggregate_data nosub_df sp_agg_dict = Except.error "KeyError" := rfl

/-- C4 (amended): the unsupported-format and missing-metric failures
are detected and degrade without an exception, but the pipeline can
still raise: aggregate_data raises when a grouping column is absent,
and process_files raises when an upload group is empty and also when a
concatenated report table lacks its join key column (as happens after
an unsupported-format upload is replaced by the empty table). -/
theorem C4_failure_modes :
    (∀ f : UploadedFile, strEndsWith f.name ".xlsx" = false →
      strEndsWith f.name ".csv" = false →
      read_file f = (emptyDF, [Msg.error "Unsupported file format"])
      ∧ read_file_asin f = (emptyDF, [Msg.error "Unsupported file format"]))
    ∧ (∀ (df : DF) (metrics : List String),
        metrics.all (fun c => df.cols.contains c) = false →
        aggregate_data df metrics =
          Except.ok (emptyDF, [Msg.error "One or more columns are missing for aggregation"]))
    ∧ (∃ df : DF, df.cols.contains "Selected Date" = true
        ∧ sp_agg_dict.all (fun c => df.cols.contains c) = true
        ∧ aggregate_data df sp_agg_dict = Except.error "KeyError")
    ∧ (∃ (sd1 sb1 : List UploadedFile) (am cm : DF) (d : Date),
        process_files [] sd1 sb1 am cm d = Except.error "No objects to concatenate")
    ∧ (∃ (sp1 sd1 sb1 : List UploadedFile) (am cm : DF) (d : Date) (sp0 : DF),
        concatDF ((sp1.map read_file_asin).map Prod.fst) = Except.ok sp0
        ∧ (setCol sp0 "Selected Date" (Val.str d.fmt)).cols.contains "Advertised ASIN"
            = false
        ∧ process_files sp1 sd1 sb1 am cm d = Except.error "KeyError") := by
  refine ⟨?_, ?_, ⟨nosub_df, rfl, rfl, rfl⟩,
    ⟨[wf_sd_file], [wf_sb_file], wf_asin_map, wf_campaign_map, wf_date, rfl⟩,
    ⟨[txt_file], [wf_sd_file], [wf_sb_file], wf_asin_map, wf_campaign_map, wf_date,
      emptyDF, rfl, rfl, rfl⟩⟩
  · intro f h1 h2
    unfold read_file read_file_asin
    rw [h1, h2]
    exact ⟨rfl, rfl⟩
  · intro df metrics h
    exact aggregate_data_missing h

/-- C4 witness: the degrading branches evaluated at concrete inputs. -/
theorem C4_witness :
    read_file txt_file = (emptyDF, [Msg.error "Unsupported file format"])
    ∧ aggregate_data nospend_df sp_agg_dict =
        Except.ok (emptyDF, [Msg.error "One or more columns are missing for aggregation"]) :=
  ⟨(C4_failure_modes.1 txt_file rfl rfl).1,
   C4_failure_modes.2.1 nospend_df sp_agg_dict rfl⟩

/-! C10 -/

/-- C10: process_files returns the two reference mappings exactly as it
received them: the embedding threads every statement of the Python
function, and no statement writes to either mapping, so their rows,
columns and values are unchanged and reusable across runs. -/
theorem C10_mappings_unchanged (sp sd sb : List UploadedFile) (am cm : DF) (d : Date)
    (out : PFOut) (h : process_files sp sd sb am cm d = Except.ok out) :
    out.asin_mapping = am ∧ out.campaign_mapping = cm :=
  ⟨(process_files_ok_inv h).1, (process_files_ok_inv h).2.1⟩

/-- C10 witness: a complete concrete run returns both mappings
unchanged. -/
theorem C10_witness :
    wf_out.asin_mapping = wf_asin_map ∧ wf_out.campaign_mapping = wf_campaign_map :=
  C10_mappings_unchanged [wf_sp_file] [wf_sd_file] [wf_sb_file] wf_asin_map wf_campaign_map
    wf_date wf_out rfl

/-! C2 -/

/-- C2: when some required metric column is missing from a joined
table, aggregation for that table is skipped as a whole: an error is
signalled and the empty table is returned, with no partial sums; and
the SD and SB summaries of process_files do not depend on the SP
uploads at all, so the other report types are unaffected. -/
theorem C2_missing_metric_skips
    (df : DF) (metrics : List String) (hmiss : ∃ c ∈ metrics, c ∉ df.cols)
    (sp sp2 sd sb : List UploadedFile) (am cm : DF) (d : Date) (out out2 : PFOut)
    (h1 : process_files sp sd sb am cm d = Except.ok out)
    (h2 : process_files sp2 sd sb am cm d = Except.ok out2) :
    aggregate_data df metrics =
      Except.ok (emptyDF, [Msg.error "One or more columns are missing for aggregation"])
    ∧ out.sd_summary = out2.sd_summary ∧ out.sb_summary = out2.sb_summary := by
  refine ⟨?_, ?_, ?_⟩
  · apply aggregate_data_missing
    obtain ⟨c, hc, hnc⟩ := hmiss
    rw [List.all_eq_false]
    refine ⟨c, hc, ?_⟩
    simpa using hnc
  · obtain ⟨-, -, ⟨sd0, mSD, msd, hsd0, hmSD, hsdS⟩, -⟩ := process_files_ok_inv h1
    obtain ⟨-, -, ⟨sd0x, mSDx, msdx, hsd0x, hmSDx, hsdSx⟩, -⟩ := process_files_ok_inv h2
    rw [hsd0] at hsd0x
    obtain rfl := (Except.ok.inj hsd0x).symm
    rw [hmSD] at hmSDx
    obtain rfl := (Except.ok.inj hmSDx).symm
    rw [hsdS] at hsdSx
    exact congrArg Prod.fst (Except.ok.inj hsdSx)
  · obtain ⟨-, -, -, ⟨sb0, mSB, msb, hsb0, hmSB, hsbS⟩⟩ := process_files_ok_inv h1
    obtain ⟨-, -, -, ⟨sb0x, mSBx, msbx, hsb0x, hmSBx, hsbSx⟩⟩ := process_files_ok_inv h2
    rw [hsb0] at hsb0x
    obtain rfl := (Except.ok.inj hsb0x).symm
    rw [hmSB] at hmSBx
    obtain rfl := (Except.ok.inj hmSBx).symm
    rw [hsbS] at hsbSx
    exact congrArg Prod.fst (Except.ok.inj hsbSx)

/-- C2 witness: two concrete runs, one with a complete SP upload and
one whose SP upload lacks Spend: the second yields the empty SP summary
while the SD and SB summaries agree with the first run. -/
theorem C2_witness :
    aggregate_data nospend_df sp_agg_dict =
      Except.ok (emptyDF, [Msg.error "One or more columns are missing for aggregation"])
    ∧ wf_out.sd_summary = nospend_out.sd_summary
    ∧ wf_out.sb_summary = nospend_out.sb_summary :=
  C2_missing_metric_skips nospend_df sp_agg_dict
    ⟨"Spend", by decide, by decide⟩
    [wf_sp_file] [nospend_sp_file] [wf_sd_file] [wf_sb_file] wf_asin_map wf_campaign_map
    wf_date wf_out nospend_out rfl rfl

/-! C1 -/

/-- C1: counterexample. The report row keyed ZZZ has no match in the
mapping: it appears exactly once in the joined table with null mapping
fields, but the aggregated summary consists of the single Cat1 row and
holds no row with a null Sub-Category. The groupby dropped the
unmatched row instead of grouping it under a null-category bucket, so
the final part of the claim fails on this input. -/
theorem C1_counterexample :
    mergeLeft c1_report c1_mapping "Advertised ASIN" "ASIN" = Except.ok c1_joined
    ∧ c1_joined.rows.countP
        (fun y => decide (y = c1_zzz_row ++ [Val.null, Val.null])) = 1
    ∧ aggregate_data c1_joined sp_agg_dict = Except.ok (c1_summary, [])
    ∧ c1_summary.rows.all
        (fun row => !(decide (getCell c1_summary.cols row "Sub-Category" = Val.null))) = true
    ∧ c1_summary.rows.length = 1 :=
  ⟨rfl, rfl, rfl, rfl, rfl⟩

/-- C1 (amended): a report row whose key matches nothing in the
reference mapping appears in the left-joined table exactly as often as
it appears in the report table, padded with null in every mapping
column; but after aggregation such rows are dropped: every row of the
summary has a non-null Sub-Category, so the unmatched rows end up in no
null-category bucket. -/
theorem C1_left_join_unmatched (l r : DF) (lk rk : String) (m : DF) (row : List Val)
    (metrics : List String) (S : DF) (msgs : List Msg)
    (hwf : ∀ x ∈ l.rows, x.length = l.cols.length)
    (hm : mergeLeft l r lk rk = Except.ok m)
    (hrow : row ∈ l.rows)
    (hum : ∀ rr ∈ r.rows, getCell r.cols rr rk ≠ getCell l.cols row lk)
    (hS : aggregate_data m metrics = Except.ok (S, msgs)) :
    m.rows.countP (fun y => decide (y = row ++ List.replicate r.cols.length Val.null))
        = l.rows.countP (fun x => decide (x = row))
    ∧ ∀ outRow ∈ S.rows, getCell S.cols outRow "Sub-Category" ≠ Val.null := by
  obtain rfl := mergeLeft_ok_inv hm
  exact ⟨mergedRows_count_unmatched hwf hrow hum, aggregate_rows_key_nonnull hS⟩

/-- C1 witness: the amended theorem evaluated on the concrete tables. -/
theorem C1_witness :
    c1_joined.rows.countP
        (fun y => decide (y = c1_zzz_row ++ List.replicate c1_mapping.cols.length Val.null))
      = c1_report.rows.countP (fun x => decide (x = c1_zzz_row))
    ∧ getCell c1_summary.cols
        [Val.str "2024-01-01", Val.str "Cat1", Val.int 1, Val.int 1, Val.int 10, Val.int 5]
        "Sub-Category" ≠ Val.null :=
  ⟨(C1_left_join_unmatched c1_report c1_mapping "Advertised ASIN" "ASIN" c1_joined
      c1_zzz_row sp_agg_dict c1_summary [] (by decide) rfl (by decide) (by decide) rfl).1,
   (C1_left_join_unmatched c1_report c1_mapping "Advertised ASIN" "ASIN" c1_joined
      c1_zzz_row sp_agg_dict c1_summary [] (by decide) rfl (by decide) (by decide) rfl).2
     [Val.str "2024-01-01", Val.str "Cat1", Val.int 1, Val.int 1, Val.int 10, Val.int 5]
     (by decide)⟩

/-! C8 -/

/-- C8: counterexample. A joined table with every required column whose
single row has a null Sub-Category has exactly one distinct
grouping-key pair, yet aggregation outputs a table with zero rows: the
null-keyed pair yields no output row, so the output does not have
exactly one row per distinct grouping-key pair. -/
theorem C8_counterexample :
    aggregate_data c8_nullkey_df sp_agg_dict =
      Except.ok (⟨["Selected Date", "Sub-Category"] ++ sp_agg_dict, []⟩, [])
    ∧ (dedupKF (c8_nullkey_df.rows.map (rowKey c8_nullkey_df.cols))).length = 1 :=
  ⟨rfl, rfl⟩

/-- C8 (amended): on a joined table with all required columns,
aggregation produces the grouping columns followed by the metric
columns; one output row per distinct grouping-key pair whose components
are both non-null (rows with a null key component are excluded), keys
unique and in sorted order (date then subcategory), each metric cell
the sum of that metric over the rows of its group. -/
theorem C8_group_sum (df : DF) (metrics : List String) (S : DF) (msgs : List Msg)
    (hall : metrics.all (fun c => df.cols.contains c) = true)
    (hsel : df.cols.contains "Selected Date" = true)
    (hsub : df.cols.contains "Sub-Category" = true)
    (hS : aggregate_data df metrics = Except.ok (S, msgs)) :
    S.cols = ["Selected Date", "Sub-Category"] ++ metrics
    ∧ S.rows = (aggKeys df).map (fun k => [k.1, k.2] ++ metrics.map (fun c =>
        sumVals ((df.rows.filter (fun x => decide (rowKey df.cols x = k))).map
          (fun x => getCell df.cols x c))))
    ∧ S.rows.map (fun row => (row.getD 0 Val.null, row.getD 1 Val.null)) = aggKeys df
    ∧ (aggKeys df).Nodup
    ∧ (aggKeys df).Pairwise (fun a b => keyLE a b = true)
    ∧ ∀ k : Val × Val, k ∈ aggKeys df ↔
        k.1 ≠ Val.null ∧ k.2 ≠ Val.null ∧ ∃ x ∈ df.rows, rowKey df.cols x = k := by
  rw [aggregate_data_groupby hall hsel hsub] at hS
  injection hS with hS
  injection hS with hS1 hS2
  subst hS1
  refine ⟨rfl, rfl, ?_, nodup_aggKeys df, pairwise_aggKeys df, fun k => mem_aggKeys⟩
  rw [List.map_map]
  have hfun : ((fun row : List Val => (row.getD 0 Val.null, row.getD 1 Val.null))
      ∘ aggRow df metrics) = id := by
    funext k
    rfl
  rw [hfun, List.map_id]

/-- C8 witness: the grouping example of the claim, widened to the full
SP metric set, aggregates to exactly the two expected rows. -/
theorem C8_witness :
    aggregate_data c8_example sp_agg_dict = Except.ok (c8_example_summary, [])
    ∧ c8_example_summary.cols = ["Selected Date", "Sub-Category"] ++ sp_agg_dict
    ∧ c8_example_summary.rows.map (fun row => (row.getD 0 Val.null, row.getD 1 Val.null))
        = aggKeys c8_example
    ∧ c8_example_summary.rows.length = 2 :=
  ⟨rfl,
   (C8_group_sum c8_example sp_agg_dict c8_example_summary [] rfl rfl rfl rfl).1,
   (C8_group_sum c8_example sp_agg_dict c8_example_summary [] rfl rfl rfl rfl).2.2.1,
   rfl⟩

/-! C9 -/

/-- C9: concatenation of the per-file tables is row-wise with column
union semantics: the concatenated column set is exactly the union of
the input column sets (in order of first appearance), the rows are the
input rows in order reindexed to those columns, and a cell of a column
absent from a row's source table is the null marker while a present
column keeps its value. -/
theorem C9_concat_union (dfs : List DF) (out : DF)
    (h : concatDF dfs = Except.ok out) :
    (∀ c, c ∈ out.cols ↔ ∃ df ∈ dfs, c ∈ df.cols)
    ∧ out.rows = dfs.flatMap (fun df => df.rows.map (reindexRow df.cols out.cols))
    ∧ ∀ df ∈ dfs, ∀ row ∈ df.rows, ∀ c ∈ out.cols,
        getCell out.cols (reindexRow df.cols out.cols row) c =
          if c ∈ df.cols then getCell df.cols row c else Val.null := by
  unfold concatDF at h
  split at h
  · exact Except.noConfusion h
  · injection h with h
    subst h
    refine ⟨fun c => mem_unionCols dfs c, rfl, ?_⟩
    intro df hdf row hrow c hc
    rw [reindexRow, getCell_map_self hc]
    by_cases hm : c ∈ df.cols
    · rw [if_pos hm]
    · rw [if_neg hm, getCell_not_mem hm]

/-- C9 witness: two files with column sets A,B and A,C concatenate to
the table with columns A,B,C, the missing cells null. -/
theorem C9_witness :
    concatDF [fileAB.data, fileAC.data] =
      Except.ok ⟨["A", "B", "C"],
        [[Val.int 1, Val.int 2, Val.null], [Val.int 3, Val.null, Val.int 4]]⟩
    ∧ "B" ∈ (["A", "B", "C"] : List String)
    ∧ getCell ["A", "B", "C"]
        (reindexRow fileAC.data.cols ["A", "B", "C"] [Val.int 3, Val.int 4]) "B" =
          (if "B" ∈ fileAC.data.cols then
            getCell fileAC.data.cols [Val.int 3, Val.int 4] "B" else Val.null) :=
  ⟨rfl,
   ((C9_concat_union [fileAB.data, fileAC.data] _ rfl).1 "B").mpr
     ⟨fileAB.data, by decide, by decide⟩,
   (C9_concat_union [fileAB.data, fileAC.data] _ rfl).2.2 fileAC.data (by decide)
     [Val.int 3, Val.int 4] (by decide) "B" (by decide)⟩
